import Mathlib

/-!
# Verification of the fedify lookup / inbox specification

A shallow embedding of `lookupObjectInternal` and `traverseCollection` from
`packages/vocab/src/lookup.ts`, of the CLI first-knock option resolution from
`packages/cli/src/lookup.ts`, and of the federation inbox pipeline (modelled
from the spec where the engine source is external), together with theorems
settling the specification claims about them.
-/

namespace Fedify

/-- A parsed URL, reduced to the components the lookup code inspects:
scheme, host, port and path (fragment/query folded into `path`, which only
feeds `href`).  Mirrors the WHATWG `URL` fields used by `lookup.ts`. -/
structure Url where
  scheme : String
  host : String
  port : Option Nat
  path : String
deriving DecidableEq, Repr

/-- The serialized URL, as `URL.href` renders it. -/
def Url.href (u : Url) : String :=
  u.scheme ++ "://" ++ u.host ++
    (match u.port with
     | some p => ":" ++ toString p
     | none => "") ++ u.path

/-- The default port the WHATWG URL parser elides for a scheme. -/
def defaultPort : String → Option Nat
  | "http" => some 80
  | "https" => some 443
  | _ => none

/-- A `Url` as the WHATWG parser would produce it: an explicit port equal to
the scheme's default port never survives parsing. -/
def Url.normalized (u : Url) : Bool :=
  match u.port with
  | some p => !(defaultPort u.scheme == some p)
  | none => true

/-- `URL.origin`: scheme + host + port, with a default port elided, exactly
the value `lookup.ts` compares with `!==`. -/
def Url.origin (u : Url) : String × String × Option Nat :=
  (u.scheme, u.host,
    match u.port with
    | some p => if defaultPort u.scheme = some p then none else some p
    | none => none)

/-- A `RemoteDocument` as returned by a `DocumentLoader`: the final document
URL and the (opaque) JSON payload. -/
structure RemoteDocument where
  documentUrl : Url
  document : String
deriving DecidableEq, Repr

/-- The result of `Object.fromJsonLd`, reduced to what `lookup.ts` reads:
the object's `@id` (`object.id`) plus an opaque payload distinguishing
objects. -/
structure ParsedObject where
  id : Option Url
  payload : String
deriving DecidableEq, Repr

/-- Outcome of an `Object.fromJsonLd` call: success, a thrown `TypeError`
(which `lookupObjectInternal` catches), or any other thrown error (which it
rethrows), carrying the error rendered as a string. -/
inductive ParseResult where
  | ok (object : ParsedObject)
  | typeError
  | otherError (e : String)
deriving DecidableEq, Repr

/-- The `crossOrigin` lookup option values. -/
inductive CrossOrigin where
  | ignore
  | throw
  | trust
deriving DecidableEq, Repr

/-- The options of `lookupObject` that reach the trust gate; `none` models an
omitted `crossOrigin` option. -/
structure LookupOptions where
  crossOrigin : Option CrossOrigin := none
deriving DecidableEq, Repr

/-- One link of a WebFinger JRD document (`jrd.links` entries). -/
structure JrdLink where
  rel : String
  type : Option String
  href : Option Url
deriving DecidableEq, Repr

/-- Drops `p` from the front of `cs`, or fails. -/
def dropPfx : List Char → List Char → Option (List Char)
  | [], cs => some cs
  | _, [] => none
  | a :: as, c :: cs => if a = c then dropPfx as cs else none

/-- `p` is an initial segment of `cs`. -/
def isPfxOf (p cs : List Char) : Bool :=
  (dropPfx p cs).isSome

/-- JavaScript `\s` character class (the whitespace the regex may skip). -/
def isJsSpace (c : Char) : Bool :=
  c = ' ' || c = '\t' || c = '\n' || c = '\r' ||
    c = '\x0b' || c = '\x0c'

/-- The literal head of the media-type regex in `lookupObjectInternal`. -/
def ldJsonHead : List Char := "application/ld+json;".data

/-- The literal tail of the media-type regex, after optional whitespace. -/
def ldJsonTail : List Char :=
  "profile=\"https://www.w3.org/ns/activitystreams\"".data

/-- One anchored attempt of the regex
`application\/ld\+json;\s*profile="https:\/\/www.w3.org\/ns\/activitystreams"`. -/
def ldMatchHere (cs : List Char) : Bool :=
  match dropPfx ldJsonHead cs with
  | some rest => isPfxOf ldJsonTail (rest.dropWhile isJsSpace)
  | none => false

/-- Unanchored search of the same regex over the character list. -/
def ldSearch : List Char → Bool
  | [] => false
  | c :: rest => ldMatchHere (c :: rest) || ldSearch rest

/-- `l.type?.match(/application\/ld\+json;\s*profile="..."/)` as a Boolean. -/
def ldJsonProfileMatch : Option String → Bool
  | none => false
  | some s => ldSearch s.data

/-- The acceptance test of the `for (const l of jrd.links)` loop: the link is
followed unless its type is neither `application/activity+json` nor an
activitystreams-profiled `ld+json`, or its `rel` is not `"self"`, or its
`href` is null. -/
def matchesSelfLink (l : JrdLink) : Bool :=
  (l.type == some "application/activity+json" || ldJsonProfileMatch l.type) &&
    l.rel == "self" && l.href.isSome

/-- The environment a lookup runs in: the injected `DocumentLoader` (a
`none` result models a thrown fetch error, which `lookup.ts` catches), the
`lookupWebFinger` result for the identifier (`none` models `jrd` or
`jrd.links` being null), and `Object.fromJsonLd` applied to a payload with a
base URL. -/
structure LookupEnv where
  loader : Url → Option RemoteDocument
  webfinger : Option (List JrdLink)
  fromJsonLd : String → Url → ParseResult

/-- The WebFinger loop of `lookupObjectInternal`: follow each acceptable
`rel="self"` link in order, keeping the first document that loads; a failed
load logs and continues. -/
def fetchSelfLinks (env : LookupEnv) : List JrdLink → Option RemoteDocument
  | [] => none
  | l :: rest =>
    if matchesSelfLink l then
      match l.href with
      | some h =>
        match env.loader h with
        | some doc => some doc
        | none => fetchSelfLinks env rest
      | none => fetchSelfLinks env rest
    else fetchSelfLinks env rest

/-- First literal piece of the `crossOrigin: "throw"` error message. -/
def comPart1 : String := "The object's @id ("

/-- Second literal piece of the `crossOrigin: "throw"` error message. -/
def comPart2 : String := ") has a different origin than the document URL ("

/-- Third literal piece of the `crossOrigin: "throw"` error message. -/
def comPart3 : String :=
  "); refusing to return the object.  If you want to bypass this check " ++
    "and are aware of the security implications, set the crossOrigin " ++
    "option to \"trust\"."

/-- The error message built by the `crossOrigin: "throw"` branch. -/
def crossOriginMessage (objectId documentUrl : String) : String :=
  comPart1 ++ objectId ++ comPart2 ++ documentUrl ++ comPart3

/-- Outcome of a lookup: a resolved value (`none` = the function returned
`null`) or a thrown error carrying its message. -/
inductive LookupOutcome where
  | ok (result : Option ParsedObject)
  | thrown (message : String)
deriving DecidableEq, Repr

/-- The cross-origin condition of `lookup.ts` line 224: the option is not
`"trust"`, the object has an `@id`, and its origin differs from the document
URL's origin. -/
def crossOriginViolated (opts : LookupOptions) (object : ParsedObject)
    (documentUrl : Url) : Bool :=
  opts.crossOrigin != some CrossOrigin.trust &&
    (match object.id with
     | some i => decide (i.origin ≠ documentUrl.origin)
     | none => false)

/-- Lines 206–245 of `lookup.ts`: parse the fetched document (`TypeError` →
log and return null, other errors rethrown), then apply the cross-origin
trust gate before returning the object. -/
def processRemoteDocument (env : LookupEnv) (opts : LookupOptions)
    (remoteDoc : RemoteDocument) : LookupOutcome :=
  match env.fromJsonLd remoteDoc.document remoteDoc.documentUrl with
  | .typeError => .ok none
  | .otherError e => .thrown e
  | .ok object =>
    if crossOriginViolated opts object remoteDoc.documentUrl then
      if opts.crossOrigin = some CrossOrigin.throw then
        .thrown (crossOriginMessage
          ((object.id.map Url.href).getD "") remoteDoc.documentUrl.href)
      else
        .ok none
    else
      .ok (some object)

/-- `lookupObjectInternal` of `lookup.ts` (lines 159–246): try a direct
fetch for http(s) identifiers, fall back to WebFinger `rel="self"` links,
return null when no document was obtained, else parse and apply the trust
gate. -/
def lookupObjectInternal (env : LookupEnv) (identifier : Url)
    (opts : LookupOptions) : LookupOutcome :=
  let direct : Option RemoteDocument :=
    if identifier.scheme = "http" ∨ identifier.scheme = "https" then
      env.loader identifier
    else none
  let remoteDoc : Option RemoteDocument :=
    match direct with
    | some doc => some doc
    | none =>
      match env.webfinger with
      | none => none
      | some links => fetchSelfLinks env links
  match remoteDoc with
  | none => .ok none
  | some doc => processRemoteDocument env opts doc

/-- A lookup environment in which nothing is found: every document fetch
fails and WebFinger yields nothing. -/
def notFoundEnv (parse : String → Url → ParseResult) : LookupEnv :=
  { loader := fun _ => none, webfinger := none, fromJsonLd := parse }

/-- Every lookup against `notFoundEnv` resolves to null. -/
theorem notFoundEnv_ok_none (parse : String → Url → ParseResult)
    (identifier : Url) (opts : LookupOptions) :
    lookupObjectInternal (notFoundEnv parse) identifier opts = .ok none := by
  simp only [lookupObjectInternal, notFoundEnv]
  by_cases h : identifier.scheme = "http" ∨ identifier.scheme = "https" <;>
    simp [h]

/-- C1: under the default cross-origin policy (`crossOrigin` omitted or
`"ignore"`), a document whose declared `@id` has a different origin than the
URL it was fetched from makes `lookupObjectInternal` return null without
throwing — the same outcome as a lookup in which nothing is found at all. -/
theorem crossOrigin_default_returns_null
    (env : LookupEnv) (identifier : Url) (opts : LookupOptions)
    (doc : RemoteDocument) (object : ParsedObject) (i : Url)
    (hscheme : identifier.scheme = "http" ∨ identifier.scheme = "https")
    (hload : env.loader identifier = some doc)
    (hparse : env.fromJsonLd doc.document doc.documentUrl = .ok object)
    (hid : object.id = some i)
    (horigin : i.origin ≠ doc.documentUrl.origin)
    (hpolicy : opts.crossOrigin = none ∨
      opts.crossOrigin = some CrossOrigin.ignore) :
    lookupObjectInternal env identifier opts = .ok none ∧
    lookupObjectInternal env identifier opts =
      lookupObjectInternal (notFoundEnv env.fromJsonLd) identifier opts := by
  have hmain : lookupObjectInternal env identifier opts = .ok none := by
    simp only [lookupObjectInternal, if_pos hscheme, hload]
    simp only [processRemoteDocument, hparse]
    have hviol : crossOriginViolated opts object doc.documentUrl = true := by
      rcases hpolicy with hp | hp <;>
        simp [crossOriginViolated, hp, hid, horigin]
    rw [if_pos hviol]
    rcases hpolicy with hp | hp <;> simp [hp]
  exact ⟨hmain, by rw [hmain, notFoundEnv_ok_none]⟩

/-- The document URL of the FEP-fe34 spoofing fixture. -/
def spoofDocUrl : Url := ⟨"https", "example.com", none, "/note"⟩

/-- The spoofed (cross-origin) declared `@id` of the fixture. -/
def spoofId : Url := ⟨"https", "malicious.com", none, "/fake-note"⟩

/-- The remote document of the fixture. -/
def spoofDoc : RemoteDocument := ⟨spoofDocUrl, "doc"⟩

/-- The parsed object of the fixture, declaring the spoofed `@id`. -/
def spoofObject : ParsedObject := ⟨some spoofId, "note"⟩

/-- A lookup environment serving the spoofing fixture for every URL. -/
def spoofEnv : LookupEnv :=
  { loader := fun _ => some spoofDoc,
    webfinger := none,
    fromJsonLd := fun _ _ => .ok spoofObject }

/-- C1 witness: a concrete cross-origin document under the default policy. -/
theorem crossOrigin_default_returns_null_witness :
    lookupObjectInternal spoofEnv spoofDocUrl ⟨none⟩ = .ok none :=
  (crossOrigin_default_returns_null spoofEnv spoofDocUrl ⟨none⟩
    spoofDoc spoofObject spoofId
    (Or.inr rfl) rfl rfl rfl (by decide) (Or.inl rfl)).1

/-- C4: with `crossOrigin: "throw"`, a cross-origin declared `@id` makes the
lookup throw, and the error message contains both the object's `@id` URL and
the document URL. -/
theorem crossOrigin_throw_names_both_urls
    (env : LookupEnv) (identifier : Url) (opts : LookupOptions)
    (doc : RemoteDocument) (object : ParsedObject) (i : Url)
    (hscheme : identifier.scheme = "http" ∨ identifier.scheme = "https")
    (hload : env.loader identifier = some doc)
    (hparse : env.fromJsonLd doc.document doc.documentUrl = .ok object)
    (hid : object.id = some i)
    (horigin : i.origin ≠ doc.documentUrl.origin)
    (hpolicy : opts.crossOrigin = some CrossOrigin.throw) :
    lookupObjectInternal env identifier opts =
      .thrown (crossOriginMessage i.href doc.documentUrl.href) ∧
    crossOriginMessage i.href doc.documentUrl.href =
      comPart1 ++ i.href ++ comPart2 ++ doc.documentUrl.href ++ comPart3 := by
  refine ⟨?_, rfl⟩
  simp only [lookupObjectInternal, if_pos hscheme, hload]
  simp only [processRemoteDocument, hparse]
  have hviol : crossOriginViolated opts object doc.documentUrl = true := by
    simp [crossOriginViolated, hpolicy, hid, horigin]
  rw [if_pos hviol, if_pos hpolicy, hid]
  rfl

/-- C4 witness: the concrete spoofed note from the FEP-fe34 test. -/
theorem crossOrigin_throw_names_both_urls_witness :
    lookupObjectInternal spoofEnv spoofDocUrl ⟨some CrossOrigin.throw⟩ =
      .thrown (crossOriginMessage spoofId.href spoofDocUrl.href) :=
  (crossOrigin_throw_names_both_urls spoofEnv spoofDocUrl
    ⟨some CrossOrigin.throw⟩ spoofDoc spoofObject spoofId
    (Or.inr rfl) rfl rfl rfl (by decide) rfl).1

/-- C5: an object whose declared `@id` is null, or shares the origin of the
document URL, is returned unchanged under every cross-origin policy. -/
theorem sameOrigin_or_no_id_always_returned
    (env : LookupEnv) (identifier : Url) (opts : LookupOptions)
    (doc : RemoteDocument) (object : ParsedObject)
    (hscheme : identifier.scheme = "http" ∨ identifier.scheme = "https")
    (hload : env.loader identifier = some doc)
    (hparse : env.fromJsonLd doc.document doc.documentUrl = .ok object)
    (hid : object.id = none ∨
      ∃ i, object.id = some i ∧ i.origin = doc.documentUrl.origin) :
    lookupObjectInternal env identifier opts = .ok (some object) := by
  simp only [lookupObjectInternal, if_pos hscheme, hload]
  simp only [processRemoteDocument, hparse]
  have hviol : crossOriginViolated opts object doc.documentUrl = false := by
    rcases hid with hp | ⟨i, hi, ho⟩
    · simp [crossOriginViolated, hp]
    · simp [crossOriginViolated, hi, ho]
  simp [hviol]

/-- The same-origin fixture: the declared `@id` equals the document URL. -/
def sameOriginObject : ParsedObject := ⟨some spoofDocUrl, "note"⟩

/-- A lookup environment serving the same-origin fixture for every URL. -/
def sameOriginEnv : LookupEnv :=
  { loader := fun _ => some spoofDoc,
    webfinger := none,
    fromJsonLd := fun _ _ => .ok sameOriginObject }

/-- C5 witness: a same-origin note returned under the `"throw"` policy. -/
theorem sameOrigin_or_no_id_always_returned_witness :
    lookupObjectInternal sameOriginEnv spoofDocUrl ⟨some CrossOrigin.throw⟩ =
      .ok (some sameOriginObject) :=
  sameOrigin_or_no_id_always_returned sameOriginEnv spoofDocUrl
    ⟨some CrossOrigin.throw⟩ spoofDoc sameOriginObject
    (Or.inr rfl) rfl rfl (Or.inr ⟨spoofDocUrl, rfl, by decide⟩)

/-- On a parsed (normalized) URL, `URL.origin` is exactly the
scheme/host/port triple. -/
theorem origin_eq_of_normalized (u : Url) (h : u.normalized = true) :
    u.origin = (u.scheme, u.host, u.port) := by
  unfold Url.origin
  unfold Url.normalized at h
  match hp : u.port with
  | none => rfl
  | some p =>
    rw [hp] at h
    simp only [Bool.not_eq_true', beq_eq_false_iff_ne, ne_eq] at h
    simp [h]

/-- C6: origin comparison is an exact scheme + host + port match — a
declared `@id` differing from the document URL in scheme, host (including
subdomain) or port has a distinct origin, and the object is rejected under
every policy except `"trust"` (null under `"ignore"`/default, thrown under
`"throw"`). -/
theorem origin_check_exact_components
    (env : LookupEnv) (identifier : Url) (opts : LookupOptions)
    (doc : RemoteDocument) (object : ParsedObject) (i : Url)
    (hscheme : identifier.scheme = "http" ∨ identifier.scheme = "https")
    (hload : env.loader identifier = some doc)
    (hparse : env.fromJsonLd doc.document doc.documentUrl = .ok object)
    (hid : object.id = some i)
    (hni : i.normalized = true)
    (hnd : doc.documentUrl.normalized = true)
    (hdiff : i.scheme ≠ doc.documentUrl.scheme ∨
      i.host ≠ doc.documentUrl.host ∨ i.port ≠ doc.documentUrl.port)
    (hpolicy : opts.crossOrigin ≠ some CrossOrigin.trust) :
    i.origin ≠ doc.documentUrl.origin ∧
    lookupObjectInternal env identifier opts =
      (if opts.crossOrigin = some CrossOrigin.throw then
        .thrown (crossOriginMessage i.href doc.documentUrl.href)
      else .ok none) := by
  have horigin : i.origin ≠ doc.documentUrl.origin := by
    rw [origin_eq_of_normalized i hni,
      origin_eq_of_normalized doc.documentUrl hnd]
    intro he
    rcases hdiff with hd | hd | hd <;>
      simp only [Prod.mk.injEq] at he <;> exact hd (by tauto)
  refine ⟨horigin, ?_⟩
  simp only [lookupObjectInternal, if_pos hscheme, hload]
  simp only [processRemoteDocument, hparse]
  have hviol : crossOriginViolated opts object doc.documentUrl = true := by
    simp [crossOriginViolated, hid, horigin, hpolicy]
  rw [if_pos hviol]
  by_cases hth : opts.crossOrigin = some CrossOrigin.throw
  · rw [if_pos hth, if_pos hth, hid]
    rfl
  · rw [if_neg hth, if_neg hth]

/-- C6 witness: a host (subdomain-level) difference is rejected under the
explicit `"ignore"` policy. -/
theorem origin_check_exact_components_witness :
    lookupObjectInternal spoofEnv spoofDocUrl
      ⟨some CrossOrigin.ignore⟩ = .ok none := by
  have h := origin_check_exact_components spoofEnv spoofDocUrl
    ⟨some CrossOrigin.ignore⟩ spoofDoc spoofObject spoofId
    (Or.inr rfl) rfl rfl rfl rfl rfl
    (Or.inr (Or.inl (by decide))) (by decide)
  simpa using h.2

/-- C7: for a handle resolved via WebFinger, the cross-origin check compares
the resolved object's declared `@id` against the URL of the actor document
fetched from the `rel="self"` link target — the outcome depends only on that
document's URL (the WebFinger document's URL never enters the check). -/
theorem webfinger_check_uses_actor_document_url
    (env : LookupEnv) (identifier : Url) (l : JrdLink) (rest : List JrdLink)
    (h : Url) (doc : RemoteDocument) (object : ParsedObject) (i : Url)
    (hscheme : identifier.scheme ≠ "http" ∧ identifier.scheme ≠ "https")
    (hwf : env.webfinger = some (l :: rest))
    (hmatch : matchesSelfLink l = true)
    (hhref : l.href = some h)
    (hload : env.loader h = some doc)
    (hparse : env.fromJsonLd doc.document doc.documentUrl = .ok object)
    (hid : object.id = some i) :
    lookupObjectInternal env identifier ⟨none⟩ =
      (if i.origin = doc.documentUrl.origin then .ok (some object)
      else .ok none) := by
  have hdir : ¬(identifier.scheme = "http" ∨ identifier.scheme = "https") := by
    rcases hscheme with ⟨h1, h2⟩
    rintro (hc | hc) <;> [exact h1 hc; exact h2 hc]
  simp only [lookupObjectInternal, if_neg hdir, hwf]
  rw [fetchSelfLinks, if_pos hmatch, hhref]
  simp only [hload]
  simp only [processRemoteDocument, hparse]
  by_cases ho : i.origin = doc.documentUrl.origin
  · have hviol : crossOriginViolated ⟨none⟩ object doc.documentUrl = false := by
      simp [crossOriginViolated, hid, ho]
    simp [hviol, ho]
  · have hviol : crossOriginViolated ⟨none⟩ object doc.documentUrl = true := by
      simp [crossOriginViolated, hid, ho]
    simp [hviol, ho]

/-- The `rel="self"` target of the WebFinger cross-origin fixture. -/
def actorDocUrl : Url := ⟨"https", "different-origin.com", none, "/actor"⟩

/-- The spoofed declared `@id` of the WebFinger fixture. -/
def fakeActorId : Url := ⟨"https", "malicious.com", none, "/fake-actor"⟩

/-- The actor document fetched from the self-link target. -/
def actorDoc : RemoteDocument := ⟨actorDocUrl, "actordoc"⟩

/-- The parsed actor of the WebFinger fixture. -/
def fakeActorObject : ParsedObject := ⟨some fakeActorId, "actor"⟩

/-- The JRD self link of the fixture. -/
def selfLink : JrdLink :=
  ⟨"self", some "application/activity+json", some actorDocUrl⟩

/-- The `acct:` identifier of the fixture (no direct http(s) fetch). -/
def acctIdentifier : Url := ⟨"acct", "", none, "user@example.com"⟩

/-- The environment of the WebFinger cross-origin fixture. -/
def wfEnv : LookupEnv :=
  { loader := fun _ => some actorDoc,
    webfinger := some [selfLink],
    fromJsonLd := fun _ _ => .ok fakeActorObject }

/-- C7 witness: the WebFinger fixture is rejected because the declared `@id`
and the actor document URL differ — even though neither shares the
handle's host. -/
theorem webfinger_check_uses_actor_document_url_witness :
    lookupObjectInternal wfEnv acctIdentifier ⟨none⟩ = .ok none := by
  have h := webfinger_check_uses_actor_document_url wfEnv acctIdentifier
    selfLink [] actorDocUrl actorDoc fakeActorObject fakeActorId
    ⟨by decide, by decide⟩ rfl (by decide) rfl rfl rfl rfl
  simpa using h

/-- Modelled from the spec: the abort-signal contract of the external
`DocumentLoader` and `lookupWebFinger` collaborators (spec §6), whose
sources are not under `src/` — when the provided signal is aborted, every
document fetch raises (which `lookupObjectInternal` catches as a failed
load) and WebFinger resolution yields nothing. -/
def abortedEnv (base : LookupEnv) (signalAborted : Bool) : LookupEnv :=
  if signalAborted then notFoundEnv base.fromJsonLd else base

/-- C8: a lookup whose fetches are cancelled through an aborted signal —
the loader raises (caught by `lookupObjectInternal`) and `lookupWebFinger`
resolves null — resolves to null instead of surfacing a fault.  The aborted
environment is `notFoundEnv` by construction; `abortedEnv` models the
abort-signal contract of the external `DocumentLoader`/`lookupWebFinger`
collaborators. -/
theorem aborted_lookup_resolves_null
    (base : LookupEnv) (identifier : Url) (opts : LookupOptions)
    (signalAborted : Bool) (h : signalAborted = true) :
    lookupObjectInternal (abortedEnv base signalAborted) identifier opts =
      .ok none := by
  subst h
  rw [abortedEnv, if_pos rfl]
  exact notFoundEnv_ok_none base.fromJsonLd identifier opts

/-- C8 witness: the spoofing environment, aborted before the call. -/
theorem aborted_lookup_resolves_null_witness :
    lookupObjectInternal (abortedEnv spoofEnv true) spoofDocUrl ⟨none⟩ =
      .ok none :=
  aborted_lookup_resolves_null spoofEnv spoofDocUrl ⟨none⟩ true rfl

/-- C9: when a fetched document fails to parse, a `TypeError` from
`Object.fromJsonLd` makes the lookup return null under every `crossOrigin`
value (omitted, `"ignore"`, `"throw"`, `"trust"`), while an error of any
other type is propagated to the caller. -/
theorem parse_failure_handling
    (env : LookupEnv) (identifier : Url) (doc : RemoteDocument)
    (hscheme : identifier.scheme = "http" ∨ identifier.scheme = "https")
    (hload : env.loader identifier = some doc) :
    (env.fromJsonLd doc.document doc.documentUrl = .typeError →
      ∀ co : Option CrossOrigin,
        lookupObjectInternal env identifier ⟨co⟩ = .ok none) ∧
    (∀ e, env.fromJsonLd doc.document doc.documentUrl = .otherError e →
      ∀ co : Option CrossOrigin,
        lookupObjectInternal env identifier ⟨co⟩ = .thrown e) := by
  constructor
  · intro hparse co
    simp only [lookupObjectInternal, if_pos hscheme, hload]
    simp only [processRemoteDocument, hparse]
  · intro e hparse co
    simp only [lookupObjectInternal, if_pos hscheme, hload]
    simp only [processRemoteDocument, hparse]

/-- An environment whose document never parses (`TypeError`). -/
def malformedEnv : LookupEnv :=
  { loader := fun _ => some spoofDoc,
    webfinger := none,
    fromJsonLd := fun _ _ => .typeError }

/-- C9 witness: a malformed document yields null even under `"throw"`. -/
theorem parse_failure_handling_witness :
    lookupObjectInternal malformedEnv spoofDocUrl
      ⟨some CrossOrigin.throw⟩ = .ok none :=
  (parse_failure_handling malformedEnv spoofDocUrl spoofDoc
    (Or.inr rfl) rfl).1 rfl (some CrossOrigin.throw)

/-- A collection as `traverseCollection` consumes it: `getFirst` resolves to
the first page (or null), and the collection's own `getItems` yields its
inline items.  Page identifiers `σ` stand for the page objects of the
external vocab classes. -/
structure Collection (σ α : Type) where
  first : Option σ
  items : List α

/-- The page accessors `getItems`/`getNext` of the external vocab classes,
as the environment the traversal runs in. -/
structure CollectionEnv (σ α : Type) where
  getItems : σ → List α
  getNext : σ → Option σ

/-- The `while (page != null)` loop of `traverseCollection` (lines 310–316
of `lookup.ts`): yield the current page's items, then move to `getNext`.
Fuel bounds the number of pages followed; `none` means the chain did not
end within the fuel. -/
def traversePages {σ α : Type} (env : CollectionEnv σ α) :
    Nat → σ → Option (List α)
  | 0, _ => none
  | fuel + 1, p =>
    match env.getNext p with
    | none => some (env.getItems p)
    | some q => (traversePages env fuel q).map (env.getItems p ++ ·)

/-- `traverseCollection` of `lookup.ts` (lines 298–318): if the collection
has no first page, yield its own items; otherwise walk the page chain from
the first page. -/
def traverseCollection {σ α : Type} (env : CollectionEnv σ α)
    (col : Collection σ α) (fuel : Nat) : Option (List α) :=
  match col.first with
  | none => some col.items
  | some p => traversePages env fuel p

/-- The successive pages visited from `p` until `getNext` yields null. -/
def pageChain {σ α : Type} (env : CollectionEnv σ α) :
    Nat → σ → Option (List σ)
  | 0, _ => none
  | fuel + 1, p =>
    match env.getNext p with
    | none => some [p]
    | some q => (pageChain env fuel q).map (p :: ·)

/-- The traversal concatenates the items of the visited pages in order. -/
theorem traversePages_eq_chain {σ α : Type} (env : CollectionEnv σ α)
    (fuel : Nat) : ∀ p : σ,
    traversePages env fuel p =
      (pageChain env fuel p).map
        (fun ps => (ps.map env.getItems).flatten) := by
  induction fuel with
  | zero => intro p; rfl
  | succ f ih =>
    intro p
    cases hn : env.getNext p with
    | none => simp [traversePages, pageChain, hn]
    | some q =>
      simp only [traversePages, pageChain, hn, ih q]
      cases pageChain env f q <;> simp

/-- C10: `traverseCollection` yields the items of the first page in order,
followed by the items of each successive page obtained via `getNext`,
stopping when `getNext` yields null; a collection without a first page
yields its own items, so a paginated collection and a non-paginated one
holding the same contents yield the same item sequence. -/
theorem traverseCollection_pages_in_order {σ α : Type}
    (env : CollectionEnv σ α) (col : Collection σ α) (fuel : Nat) :
    (col.first = none → traverseCollection env col fuel = some col.items) ∧
    (∀ p ps, col.first = some p → pageChain env fuel p = some ps →
      traverseCollection env col fuel =
        some ((ps.map env.getItems).flatten)) ∧
    (∀ p ps (flat : Collection σ α), col.first = some p →
      pageChain env fuel p = some ps →
      flat.first = none → flat.items = (ps.map env.getItems).flatten →
      traverseCollection env col fuel = traverseCollection env flat fuel) := by
  have hpage : ∀ p ps, col.first = some p → pageChain env fuel p = some ps →
      traverseCollection env col fuel =
        some ((ps.map env.getItems).flatten) := by
    intro p ps hf hc
    simp only [traverseCollection, hf, traversePages_eq_chain env fuel p, hc]
    rfl
  refine ⟨?_, hpage, ?_⟩
  · intro hf
    simp [traverseCollection, hf]
  · intro p ps flat hf hc hflat hitems
    rw [hpage p ps hf hc]
    simp [traverseCollection, hflat, hitems]

/-- A two-page environment: page `0` holds one note and links to page `1`,
which holds two more and ends the chain. -/
def twoPageEnv : CollectionEnv Nat String :=
  { getItems := fun p => if p = 0 then ["note1"] else ["note2", "note3"],
    getNext := fun p => if p = 0 then some 1 else none }

/-- A paginated collection starting at page `0`, with no inline items. -/
def pagedCol : Collection Nat String := ⟨some 0, []⟩

/-- C10 witness: traversing the two-page collection yields the three notes
of its pages in order. -/
theorem traverseCollection_pages_in_order_witness :
    traverseCollection twoPageEnv pagedCol 2 =
      some ["note1", "note2", "note3"] :=
  (traverseCollection_pages_in_order twoPageEnv pagedCol 2).2.1 0 [0, 1]
    rfl rfl

/-- The two HTTP Signatures schemes selectable as the first knock. -/
inductive SigSpec where
  | draftCavage12
  | rfc9421
deriving DecidableEq, Repr

/-- The `bindConfig` resolution of the CLI `--first-knock` option
(`packages/cli/src/lookup.ts`, `authorizedFetchOption.firstKnock`): the CLI
value if given, else `config.lookup?.firstKnock ??
"draft-cavage-http-signatures-12"`. -/
def resolveFirstKnock (cliOption configLookupFirstKnock : Option SigSpec) :
    SigSpec :=
  match cliOption with
  | some s => s
  | none => configLookupFirstKnock.getD SigSpec.draftCavage12

/-- `specDeterminer.determineSpec()` inside `runLookup`: the scheme signing
the first knock is `command.firstKnock ?? "draft-cavage-http-signatures-12"`. -/
def determineSpec (commandFirstKnock : Option SigSpec) : SigSpec :=
  commandFirstKnock.getD SigSpec.draftCavage12

/-- C3 counterexample: with `--first-knock` unspecified and no configuration
entry, the first attempt is signed with `draft-cavage-http-signatures-12`,
not `rfc9421` as the claim states. -/
theorem firstKnock_default_not_rfc9421 :
    determineSpec (some (resolveFirstKnock none none)) ≠ SigSpec.rfc9421 := by
  decide

/-- C3 amended: when `--first-knock` is unspecified (and the configuration
sets no `lookup.firstKnock`), the CLI signs the first knock with the
`draft-cavage-http-signatures-12` scheme. -/
theorem firstKnock_default_is_draftCavage12 :
    resolveFirstKnock none none = SigSpec.draftCavage12 ∧
    determineSpec (some (resolveFirstKnock none none)) =
      SigSpec.draftCavage12 ∧
    determineSpec none = SigSpec.draftCavage12 := by
  decide

/-- Outcome of request signature verification (spec §4.3). -/
inductive AuthOutcome where
  | verified
  | unverified
  | malformed
deriving DecidableEq, Repr

/-- Observable events of one inbox POST, in order of occurrence. -/
inductive InboxEvent where
  | authCompleted (outcome : AuthOutcome)
  | dedupChecked (hit : Bool)
  | listenerInvoked (idx : Nat)
  | responded (status : Nat)
deriving DecidableEq, Repr

/-- Modelled from the spec: the federation inbox pipeline — the
`createFederation`/`setInboxListeners` engine is not under `src/`, only its
caller `runInbox` is.  Per §4.3, §4.6 and §7: signature authentication runs
first, and an unverified (401) or malformed (400) request is answered
without further processing; otherwise the idempotency key is checked and,
on a fresh key (or a null key, which disables dedup), the listeners are
invoked in registration order before the 202 response. -/
def inboxPipeline (auth : AuthOutcome) (idempotencyKey : Option String)
    (dedupHit : Bool) (listeners : Nat) : List InboxEvent :=
  match auth with
  | .malformed => [.authCompleted .malformed, .responded 400]
  | .unverified => [.authCompleted .unverified, .responded 401]
  | .verified =>
    .authCompleted .verified ::
      match idempotencyKey with
      | some _ =>
        if dedupHit then [.dedupChecked true, .responded 202]
        else .dedupChecked false ::
          ((List.range listeners).map .listenerInvoked ++ [.responded 202])
      | none =>
        (List.range listeners).map .listenerInvoked ++ [.responded 202]

/-- C2: in every inbox POST trace, signature authentication completes (as
the event at position 0, with a `verified` outcome) strictly before any
listener invocation; in particular a POST whose signature does not verify
produces zero listener invocations. -/
theorem authenticate_before_dispatch (auth : AuthOutcome)
    (key : Option String) (hit : Bool) (n : Nat) :
    (∀ idx k, (inboxPipeline auth key hit n).get? k =
        some (.listenerInvoked idx) →
      (inboxPipeline auth key hit n).get? 0 =
        some (.authCompleted .verified) ∧ 0 < k) ∧
    (auth ≠ .verified →
      (inboxPipeline auth key hit n).countP
        (fun e => match e with
          | .listenerInvoked _ => true
          | _ => false) = 0) := by
  constructor
  · intro idx k hk
    cases auth with
    | verified =>
      cases k with
      | zero => simp [inboxPipeline] at hk
      | succ k2 => exact ⟨rfl, Nat.succ_pos k2⟩
    | unverified =>
      rcases k with _ | _ | k2 <;> simp [inboxPipeline] at hk
    | malformed =>
      rcases k with _ | _ | k2 <;> simp [inboxPipeline] at hk
  · intro hne
    cases auth with
    | verified => exact absurd rfl hne
    | unverified => rfl
    | malformed => rfl

/-- C2 witness: an unverified POST against three registered listeners
invokes none of them. -/
theorem authenticate_before_dispatch_witness :
    (inboxPipeline AuthOutcome.unverified (some "key") false 3).countP
      (fun e => match e with
        | InboxEvent.listenerInvoked _ => true
        | _ => false) = 0 :=
  (authenticate_before_dispatch AuthOutcome.unverified
    (some "key") false 3).2 (by decide)

end Fedify
